import Mathlib

/-!
Verification of the hardgate_agent scoring/aggregation core.

The Python modules gate_validation.py, code_scanning.py, security_analysis.py
and compliance_check.py are shallowly embedded below: pure helper methods
become Lean functions, Python floats become exact rationals (every constant
in the source - 100, 200, 1.5, 0.8 - is exactly representable), Python dicts
with fixed key sets become structures, and code that can raise becomes
Except-valued code with the source's catch sites made explicit.
-/

namespace HardgateAgent

/-- From gate_validation.py, `_calculate_gate_score(patterns_found,
files_analyzed, gate_name)`: returns 0 when no files were analyzed, otherwise
a base score `min(100, patterns_found / max(1, files_analyzed) * 100)` with
gate-specific overrides for AUTOMATED_TESTS (double weight, guarded by
`total_files > 0` in the source), STRUCTURED_LOGS (x 1.5) and
AVOID_LOGGING_SECRETS (inverted). `base_score` is the local variable of the
same name in the source. -/
def base_score (patterns_found files_analyzed : ℕ) : ℚ :=
  min 100 ((patterns_found : ℚ) / ((max 1 files_analyzed : ℕ) : ℚ) * 100)

def calculate_gate_score (patterns_found files_analyzed : ℕ) (gate_name : String) : ℚ :=
  if files_analyzed = 0 then 0
  else
    if gate_name = "AUTOMATED_TESTS" then
      if 0 < files_analyzed then
        min 100 ((patterns_found : ℚ) / (files_analyzed : ℚ) * 200)
      else base_score patterns_found files_analyzed
    else if gate_name = "STRUCTURED_LOGS" then
      min 100 (base_score patterns_found files_analyzed * (3 / 2))
    else if gate_name = "AVOID_LOGGING_SECRETS" then
      max 0 (100 - base_score patterns_found files_analyzed)
    else base_score patterns_found files_analyzed

theorem base_score_nonneg (patterns_found files_analyzed : ℕ) :
    0 ≤ base_score patterns_found files_analyzed := by
  unfold base_score
  exact le_min (by norm_num) (by positivity)

theorem base_score_le_100 (patterns_found files_analyzed : ℕ) :
    base_score patterns_found files_analyzed ≤ 100 := by
  unfold base_score
  exact min_le_left 100 _

/-- From gate_validation.py, `_determine_gate_status(score, patterns_found)`:
PASS at score >= 80, WARNING at score >= 50, NOT_APPLICABLE when no patterns
were found, FAIL otherwise, checked in that order. -/
def determine_gate_status (score : ℚ) (patterns_found : ℕ) : String :=
  if 80 ≤ score then "PASS"
  else if 50 ≤ score then "WARNING"
  else if patterns_found = 0 then "NOT_APPLICABLE"
  else "FAIL"

/-- Reference scoring rule written from the spec text (spec section 4.3), to be
compared with `calculate_gate_score`: baseline
`min(100, evidence_count / max(1, files_analyzed) * 100)`; AUTOMATED_TESTS
`min(100, evidence_count / files_analyzed * 200)`; STRUCTURED_LOGS
`min(100, baseline * 1.5)`; AVOID_LOGGING_SECRETS `max(0, 100 - baseline)`;
other gates the baseline; score 0 whenever files_analyzed = 0. -/
def specBaseline (evidence_count files_analyzed : ℕ) : ℚ :=
  min 100 ((evidence_count : ℚ) / ((max 1 files_analyzed : ℕ) : ℚ) * 100)

def specGateScore (gate_name : String) (evidence_count files_analyzed : ℕ) : ℚ :=
  if files_analyzed = 0 then 0
  else
    if gate_name = "AUTOMATED_TESTS" then
      min 100 ((evidence_count : ℚ) / (files_analyzed : ℚ) * 200)
    else if gate_name = "STRUCTURED_LOGS" then
      min 100 (specBaseline evidence_count files_analyzed * (3 / 2))
    else if gate_name = "AVOID_LOGGING_SECRETS" then
      max 0 (100 - specBaseline evidence_count files_analyzed)
    else specBaseline evidence_count files_analyzed

/-- C1: for every gate_id, evidence count and files_analyzed, the score
computed by the code equals the reference definition from the spec, including
the AUTOMATED_TESTS, STRUCTURED_LOGS and AVOID_LOGGING_SECRETS overrides and
the files_analyzed = 0 rule. -/
theorem gate_score_matches_spec (gate_name : String)
    (evidence_count files_analyzed : ℕ) :
    calculate_gate_score evidence_count files_analyzed gate_name
      = specGateScore gate_name evidence_count files_analyzed := by
  unfold calculate_gate_score specGateScore base_score specBaseline
  split_ifs <;> first | rfl | omega

/-- C2: gate status is a total, deterministic function of (score,
evidence_count), evaluated in priority order: score >= 80 gives PASS,
otherwise score >= 50 gives WARNING, otherwise evidence_count = 0 gives
NOT_APPLICABLE, otherwise FAIL; identical inputs always yield the same
status. -/
theorem gate_status_total_deterministic (score : ℚ) (evidence_count : ℕ) :
    (80 ≤ score → determine_gate_status score evidence_count = "PASS") ∧
    (score < 80 → 50 ≤ score → determine_gate_status score evidence_count = "WARNING") ∧
    (score < 50 → evidence_count = 0 →
      determine_gate_status score evidence_count = "NOT_APPLICABLE") ∧
    (score < 50 → evidence_count ≠ 0 →
      determine_gate_status score evidence_count = "FAIL") ∧
    (∀ score2 evidence_count2, score2 = score → evidence_count2 = evidence_count →
      determine_gate_status score2 evidence_count2
        = determine_gate_status score evidence_count) := by
  unfold determine_gate_status
  refine ⟨fun h => ?_, fun h1 h2 => ?_, fun h1 h2 => ?_, fun h1 h2 => ?_, ?_⟩
  · rw [if_pos h]
  · rw [if_neg (not_le.mpr h1), if_pos h2]
  · rw [if_neg (not_le.mpr (h1.trans_le (by norm_num))), if_neg (not_le.mpr h1),
      if_pos h2]
  · rw [if_neg (not_le.mpr (h1.trans_le (by norm_num))), if_neg (not_le.mpr h1),
      if_neg h2]
  · rintro s2 e2 rfl rfl
    rfl

/-- Witness for C2 at concrete inputs: a score of 90 with 5 pieces of
evidence is classified PASS. -/
theorem gate_status_total_deterministic_witness :
    determine_gate_status 90 5 = "PASS" :=
  (gate_status_total_deterministic 90 5).1 (by norm_num)

/-- C3: every computed gate score lies in [0, 100], and with zero files
analyzed the score is 0 and the derived status is never PASS. -/
theorem gate_score_in_range (gate_name : String)
    (evidence_count files_analyzed : ℕ) :
    0 ≤ calculate_gate_score evidence_count files_analyzed gate_name ∧
    calculate_gate_score evidence_count files_analyzed gate_name ≤ 100 ∧
    (files_analyzed = 0 →
      calculate_gate_score evidence_count files_analyzed gate_name = 0 ∧
      determine_gate_status
        (calculate_gate_score evidence_count files_analyzed gate_name)
        evidence_count ≠ "PASS") := by
  have hb0 := base_score_nonneg evidence_count files_analyzed
  have hb1 := base_score_le_100 evidence_count files_analyzed
  refine ⟨?_, ?_, ?_⟩
  · unfold calculate_gate_score
    split_ifs
    · norm_num
    · exact le_min (by norm_num) (by positivity)
    · exact hb0
    · exact le_min (by norm_num) (by nlinarith)
    · exact le_max_left 0 _
    · exact hb0
  · unfold calculate_gate_score
    split_ifs
    · norm_num
    · exact min_le_left 100 _
    · exact hb1
    · exact min_le_left 100 _
    · exact max_le (by norm_num) (by linarith)
    · exact hb1
  · intro h0
    have hscore : calculate_gate_score evidence_count files_analyzed gate_name = 0 := by
      unfold calculate_gate_score
      rw [if_pos h0]
    refine ⟨hscore, ?_⟩
    rw [hscore]
    unfold determine_gate_status
    rw [if_neg (by norm_num : ¬ (80 : ℚ) ≤ 0), if_neg (by norm_num : ¬ (50 : ℚ) ≤ 0)]
    split_ifs <;> decide

/-- Witness for C3 at concrete inputs: the AUDIT_TRAIL gate with 7 matches
over 0 analyzed files scores 0 and is not PASS. -/
theorem gate_score_in_range_witness :
    calculate_gate_score 7 0 "AUDIT_TRAIL" = 0 ∧
    determine_gate_status (calculate_gate_score 7 0 "AUDIT_TRAIL") 7 ≠ "PASS" :=
  (gate_score_in_range "AUDIT_TRAIL" 7 0).2.2 rfl

theorem avoid_score_eq (e fa : ℕ) (h : fa ≠ 0) :
    calculate_gate_score e fa "AVOID_LOGGING_SECRETS" = 100 - base_score e fa := by
  unfold calculate_gate_score
  rw [if_neg h, if_neg (by decide : ¬ ("AVOID_LOGGING_SECRETS" = "AUTOMATED_TESTS")),
    if_neg (by decide : ¬ ("AVOID_LOGGING_SECRETS" = "STRUCTURED_LOGS")), if_pos rfl]
  exact max_eq_right (by linarith [base_score_le_100 e fa])

theorem base_score_mono (fa e1 e2 : ℕ) (h : e1 ≤ e2) :
    base_score e1 fa ≤ base_score e2 fa := by
  unfold base_score
  have hpos : (0 : ℚ) < ((max 1 fa : ℕ) : ℚ) := by
    have h1 : 0 < max 1 fa := by omega
    exact_mod_cast h1
  refine min_le_min le_rfl ?_
  have he : (e1 : ℚ) ≤ (e2 : ℚ) := by exact_mod_cast h
  have := (div_le_div_right hpos).mpr he
  nlinarith

theorem base_score_strict_mono (fa e1 e2 : ℕ) (hfa : 0 < fa) (h12 : e1 < e2)
    (h2 : e2 ≤ fa) : base_score e1 fa < base_score e2 fa := by
  have hmax : max 1 fa = fa := by omega
  unfold base_score
  rw [hmax]
  have hpos : (0 : ℚ) < (fa : ℚ) := by exact_mod_cast hfa
  have hx2 : (e2 : ℚ) / (fa : ℚ) * 100 ≤ 100 := by
    rw [div_mul_eq_mul_div, div_le_iff hpos]
    have h2q : (e2 : ℚ) ≤ (fa : ℚ) := by exact_mod_cast h2
    nlinarith
  have hx1 : (e1 : ℚ) / (fa : ℚ) * 100 < (e2 : ℚ) / (fa : ℚ) * 100 := by
    have h12q : (e1 : ℚ) < (e2 : ℚ) := by exact_mod_cast h12
    have := (div_lt_div_right hpos).mpr h12q
    nlinarith
  rw [min_eq_right hx2, min_eq_right (le_of_lt (lt_of_lt_of_le hx1 hx2))]
  exact hx1

/-- C6 counterexample: with files_analyzed = 1 and evidence counts 1 < 2 the
AVOID_LOGGING_SECRETS score is 0 in both cases (the baseline is already
capped at 100), so it is not strictly decreasing in evidence_count. -/
theorem avoid_logging_secrets_not_strictly_decreasing :
    (0 : ℕ) < 1 ∧ (1 : ℕ) < 2 ∧
    calculate_gate_score 1 1 "AVOID_LOGGING_SECRETS" = 0 ∧
    calculate_gate_score 2 1 "AVOID_LOGGING_SECRETS" = 0 ∧
    ¬ (calculate_gate_score 2 1 "AVOID_LOGGING_SECRETS"
        < calculate_gate_score 1 1 "AVOID_LOGGING_SECRETS") := by
  have h1 : calculate_gate_score 1 1 "AVOID_LOGGING_SECRETS" = 0 := by
    rw [avoid_score_eq 1 1 (by norm_num)]
    unfold base_score
    norm_num
  have h2 : calculate_gate_score 2 1 "AVOID_LOGGING_SECRETS" = 0 := by
    rw [avoid_score_eq 2 1 (by norm_num)]
    unfold base_score
    norm_num
  exact ⟨by norm_num, by norm_num, h1, h2, by rw [h1, h2]; norm_num⟩

/-- C6 (amended): with files_analyzed positive and held fixed, the
AVOID_LOGGING_SECRETS score is non-increasing in evidence_count, and strictly
decreasing as long as the larger evidence count does not exceed
files_analyzed (once evidence_count reaches files_analyzed the baseline is
capped at 100 and the score stays at 0). -/
theorem avoid_logging_secrets_decreasing (files_analyzed e1 e2 : ℕ)
    (hfa : 0 < files_analyzed) (h12 : e1 < e2) :
    calculate_gate_score e2 files_analyzed "AVOID_LOGGING_SECRETS"
      ≤ calculate_gate_score e1 files_analyzed "AVOID_LOGGING_SECRETS" ∧
    (e2 ≤ files_analyzed →
      calculate_gate_score e2 files_analyzed "AVOID_LOGGING_SECRETS"
        < calculate_gate_score e1 files_analyzed "AVOID_LOGGING_SECRETS") := by
  rw [avoid_score_eq e1 files_analyzed (by omega), avoid_score_eq e2 files_analyzed (by omega)]
  constructor
  · have := base_score_mono files_analyzed e1 e2 (le_of_lt h12)
    linarith
  · intro h2
    have := base_score_strict_mono files_analyzed e1 e2 hfa h12 h2
    linarith

/-- Witness for the amended C6 at concrete inputs: with 3 files analyzed the
score at 2 matches is below the score at 1 match. -/
theorem avoid_logging_secrets_decreasing_witness :
    calculate_gate_score 2 3 "AVOID_LOGGING_SECRETS"
      < calculate_gate_score 1 3 "AVOID_LOGGING_SECRETS" :=
  (avoid_logging_secrets_decreasing 3 1 2 (by norm_num) (by norm_num)).2 (by norm_num)

/-- From gate_validation.py, `_generate_gate_recommendations(gate_name,
patterns_found, evidence)`: gate-specific recommendation blocks for
STRUCTURED_LOGS, AVOID_LOGGING_SECRETS, AUTOMATED_TESTS and AUTO_SCALE keyed
on whether patterns_found is zero, followed by two generic recommendations
added only when patterns_found is zero. The evidence argument is accepted
but never read by the source. `gate_phrase` is the source's
`gate_name.replace` of underscores by spaces followed by lowercasing, which
for single-character replacement is exactly a character map. -/
def gate_phrase (gate_name : String) : String :=
  String.mk (gate_name.data.map (fun c => (if c = '_' then ' ' else c).toLower))

def generate_gate_recommendations (gate_name : String) (patterns_found : ℕ)
    (evidence : List String) : List String :=
  (if gate_name = "STRUCTURED_LOGS" then
    (if patterns_found = 0 then
      ["Implement structured logging framework (log4j, winston, etc.)",
       "Use JSON format for log output",
       "Add log levels (INFO, WARN, ERROR, DEBUG)"]
     else
      ["Ensure consistent logging patterns across all files",
       "Add correlation IDs to log entries"])
   else if gate_name = "AVOID_LOGGING_SECRETS" then
    (if 0 < patterns_found then
      ["Remove or mask sensitive data from logs",
       "Use environment variables for secrets",
       "Implement log filtering for sensitive data"]
     else
      ["Continue avoiding logging of sensitive information"])
   else if gate_name = "AUTOMATED_TESTS" then
    (if patterns_found = 0 then
      ["Add unit tests for all components",
       "Implement integration tests",
       "Add test coverage reporting"]
     else
      ["Increase test coverage to at least 80%",
       "Add performance and security tests"])
   else if gate_name = "AUTO_SCALE" then
    (if patterns_found = 0 then
      ["Implement Kubernetes Horizontal Pod Autoscaler (HPA)",
       "Configure auto-scaling policies",
       "Add resource monitoring and alerts"]
     else
      ["Optimize auto-scaling thresholds",
       "Add custom metrics for scaling decisions"])
   else []) ++
  (if patterns_found = 0 then
    ["Implement " ++ gate_phrase gate_name ++ " patterns",
     "Follow enterprise security standards"]
   else [])

/-- C9 counterexample: RETRY_LOGIC has no gate-specific recommendation rule,
and with a nonzero evidence count the generated recommendation list is empty:
the generic "implement retry logic patterns" text is not produced for every
value of evidence_count, only for zero. -/
theorem retry_logic_nonzero_evidence_no_recommendation :
    generate_gate_recommendations "RETRY_LOGIC" 1 [] = [] ∧
    ¬ ("Implement retry logic patterns"
        ∈ generate_gate_recommendations "RETRY_LOGIC" 1 []) := by
  constructor
  · rfl
  · intro h
    simp only [show generate_gate_recommendations "RETRY_LOGIC" 1 [] = [] from rfl] at h
    exact absurd h (List.not_mem_nil _)

/-- C9 (amended): recommendation generation ignores the evidence list and is
a pure function of (gate_id, evidence_count); for a gate with no
gate-specific rule it yields the generic "implement <gate> patterns"
recommendation exactly when evidence_count is zero, and the empty list when
evidence_count is nonzero. -/
theorem gate_recommendations_pure (gate_name : String) (patterns_found : ℕ)
    (evidence evidence2 : List String) :
    generate_gate_recommendations gate_name patterns_found evidence
      = generate_gate_recommendations gate_name patterns_found evidence2 ∧
    (gate_name ≠ "STRUCTURED_LOGS" → gate_name ≠ "AVOID_LOGGING_SECRETS" →
     gate_name ≠ "AUTOMATED_TESTS" → gate_name ≠ "AUTO_SCALE" →
      (patterns_found = 0 →
        generate_gate_recommendations gate_name patterns_found evidence
          = ["Implement " ++ gate_phrase gate_name ++ " patterns",
             "Follow enterprise security standards"]) ∧
      (patterns_found ≠ 0 →
        generate_gate_recommendations gate_name patterns_found evidence = [])) := by
  refine ⟨rfl, fun h1 h2 h3 h4 => ⟨fun hz => ?_, fun hnz => ?_⟩⟩
  · unfold generate_gate_recommendations
    rw [if_neg h1, if_neg h2, if_neg h3, if_neg h4, if_pos hz]
    rfl
  · unfold generate_gate_recommendations
    rw [if_neg h1, if_neg h2, if_neg h3, if_neg h4, if_neg hnz]
    rfl

/-- Witness for the amended C9 at concrete inputs: RETRY_LOGIC with zero
evidence yields the generic recommendation pair. -/
theorem gate_recommendations_pure_witness :
    generate_gate_recommendations "RETRY_LOGIC" 0 ["x"]
      = ["Implement retry logic patterns",
         "Follow enterprise security standards"] := by
  have h := ((gate_recommendations_pure "RETRY_LOGIC" 0 ["x"] []).2
    (by decide) (by decide) (by decide) (by decide)).1 rfl
  rw [h]
  rfl

/-- One gate-validation result as consumed by security_analysis.py and
compliance_check.py: only the gate name and status fields are read there. -/
structure GateRes where
  gate_name : String
  status : String

/-- The High/Medium counts of the vulnerabilities severity breakdown, as read
by `_perform_risk_assessment`. -/
structure VulnBreakdown where
  high : ℕ
  medium : ℕ

/-- From security_analysis.py, `_perform_risk_assessment`, gate loop body:
+10 for a FAIL gate, +5 for a WARNING gate. -/
def gate_risk_step (acc : ℕ) (g : GateRes) : ℕ :=
  if g.status = "FAIL" then acc + 10
  else if g.status = "WARNING" then acc + 5
  else acc

/-- From security_analysis.py, `_perform_risk_assessment`, evidence loop
body: +5 for every evidence-collection source whose data is not marked
success. -/
def evidence_risk_step (acc : ℕ) (success : Bool) : ℕ :=
  if success then acc else acc + 5

/-- From security_analysis.py, `_perform_risk_assessment`: the risk score is
accumulated first over the gate-validation results, then (when the
vulnerabilities scan is present in the scan results) +15 per High and +8 per
Medium vulnerability, then over the evidence-collection outcomes. -/
def vuln_points : Option VulnBreakdown → ℕ
  | some v => v.high * 15 + v.medium * 8
  | none => 0

def perform_risk_assessment_score (gate_results : List GateRes)
    (vulnerabilities : Option VulnBreakdown)
    (evidence_success : List Bool) : ℕ :=
  evidence_success.foldl evidence_risk_step
    (gate_results.foldl gate_risk_step 0 + vuln_points vulnerabilities)

/-- From security_analysis.py, `_determine_risk_level`: Critical at >= 50,
High at >= 30, Medium at >= 15, otherwise Low. -/
def determine_risk_level (risk_score : ℕ) : String :=
  if 50 ≤ risk_score then "Critical"
  else if 30 ≤ risk_score then "High"
  else if 15 ≤ risk_score then "Medium"
  else "Low"

theorem gate_risk_foldl (l : List GateRes) (acc : ℕ) :
    l.foldl gate_risk_step acc
      = acc + 10 * (l.filter (fun g => g.status == "FAIL")).length
          + 5 * (l.filter (fun g => g.status == "WARNING")).length := by
  induction l generalizing acc with
  | nil => simp
  | cons g t ih =>
    by_cases hf : g.status = "FAIL"
    · simp [List.foldl_cons, List.filter_cons, gate_risk_step, hf, ih]
      omega
    · by_cases hw : g.status = "WARNING"
      · simp [List.foldl_cons, List.filter_cons, gate_risk_step, hf, hw, ih]
        omega
      · simp [List.foldl_cons, List.filter_cons, gate_risk_step, hf, hw, ih]

theorem evidence_risk_foldl (l : List Bool) (acc : ℕ) :
    l.foldl evidence_risk_step acc
      = acc + 5 * (l.filter (fun b => !b)).length := by
  induction l generalizing acc with
  | nil => simp
  | cons b t ih =>
    cases b <;> simp [List.foldl_cons, List.filter_cons, evidence_risk_step, ih] <;> omega

/-- C5: the risk score is the additive sum of +10 per FAIL gate, +5 per
WARNING gate, +15 per high-severity vulnerability, +8 per medium-severity
vulnerability and +5 per failed evidence source, and the risk-level
thresholds are inclusive: exactly 50 is Critical, exactly 30 is High,
exactly 15 is Medium, below 15 is Low. -/
theorem risk_assessment_additive (gate_results : List GateRes)
    (vulnerabilities : Option VulnBreakdown) (evidence_success : List Bool) :
    perform_risk_assessment_score gate_results vulnerabilities evidence_success
      = 10 * (gate_results.filter (fun g => g.status == "FAIL")).length
        + 5 * (gate_results.filter (fun g => g.status == "WARNING")).length
        + 15 * (vulnerabilities.map VulnBreakdown.high).getD 0
        + 8 * (vulnerabilities.map VulnBreakdown.medium).getD 0
        + 5 * (evidence_success.filter (fun b => !b)).length ∧
    determine_risk_level 50 = "Critical" ∧
    determine_risk_level 30 = "High" ∧
    determine_risk_level 15 = "Medium" ∧
    (∀ n : ℕ, n < 15 → determine_risk_level n = "Low") ∧
    (∀ n : ℕ, 50 ≤ n → determine_risk_level n = "Critical") ∧
    (∀ n : ℕ, 30 ≤ n → n < 50 → determine_risk_level n = "High") ∧
    (∀ n : ℕ, 15 ≤ n → n < 30 → determine_risk_level n = "Medium") := by
  refine ⟨?_, rfl, rfl, rfl, fun n hn => ?_, fun n hn => ?_,
    fun n h1 h2 => ?_, fun n h1 h2 => ?_⟩
  · unfold perform_risk_assessment_score
    rw [evidence_risk_foldl, gate_risk_foldl]
    cases vulnerabilities with
    | none => simp [vuln_points]
    | some v => simp [vuln_points]; omega
  · unfold determine_risk_level
    rw [if_neg (by omega), if_neg (by omega), if_neg (by omega)]
  · unfold determine_risk_level
    rw [if_pos hn]
  · unfold determine_risk_level
    rw [if_neg (by omega), if_pos h1]
  · unfold determine_risk_level
    rw [if_neg (by omega), if_neg (by omega), if_pos h1]

/-- Witness for C5 at concrete inputs: one FAIL gate, one High and one Medium
vulnerability and one failed evidence source add up to 10+15+8+5 = 38, and a
risk score of 14 is Low. -/
theorem risk_assessment_additive_witness :
    perform_risk_assessment_score [⟨"AUTO_SCALE", "FAIL"⟩] (some ⟨1, 1⟩) [false] = 38 ∧
    determine_risk_level 14 = "Low" := by
  have h := risk_assessment_additive [⟨"AUTO_SCALE", "FAIL"⟩] (some ⟨1, 1⟩) [false]
  exact ⟨by rw [h.1]; rfl, h.2.2.2.2.1 14 (by norm_num)⟩

/-- The eight secret patterns of `_scan_secrets` in code_scanning.py,
identified here by the credential keyword each regex begins with. The regex
text itself is never needed below: code_scanning.py has no `import re`
statement (its imports are os, sys, asyncio, typing and pathlib), so every
`re.search` call in the module raises NameError before any regex runs. -/
def secret_patterns : List String :=
  ["password", "secret", "token", "key", "api_key", "private_key",
   "aws_access_key", "aws_secret_key"]

/-- From code_scanning.py: evaluating `re.search(pattern, line,
re.IGNORECASE)` raises `NameError: name re is not defined`, because the
module never imports `re`. -/
def re_search (pattern line : String) : Except String Bool :=
  Except.error "NameError: name re is not defined"

structure SecretFinding where
  file : String
  line : ℕ
  line_content : String
  pattern : String
  severity : String

/-- The (line number, line text, pattern) triples visited by the nested
line/pattern loop of `_scan_file_for_secrets`, line-major and with 1-based
line numbers as in the source. -/
def line_pattern_pairs (lines : List String) (patterns : List String) :
    List (ℕ × String × String) :=
  (lines.enum.map (fun p => patterns.map (fun pat => (p.1 + 1, p.2, pat)))).join

/-- From code_scanning.py, `_scan_file_for_secrets`: the nested loop runs
inside a try block whose except branch is `pass`, so the first exception
stops the loop and whatever findings accumulated up to that point are
returned. A regex hit would append a High-severity finding. Since
`re_search` always raises, the loop stops at the first (line, pattern) pair
with nothing accumulated. -/
def scan_pairs (file : String) (pairs : List (ℕ × String × String))
    (acc : List SecretFinding) : List SecretFinding :=
  match pairs with
  | [] => acc
  | (n, line, pattern) :: rest =>
      match re_search pattern line with
      | Except.error _ => acc
      | Except.ok true =>
          scan_pairs file rest
            (acc ++ [{ file := file, line := n, line_content := line.trim,
                       pattern := pattern, severity := "High" }])
      | Except.ok false => scan_pairs file rest acc

def scan_file_for_secrets (file : String) (lines : List String) :
    List SecretFinding :=
  scan_pairs file (line_pattern_pairs lines secret_patterns) []

structure SecretsScanResult where
  total_secrets : ℕ
  secrets : List SecretFinding
  risk_level : String

/-- From code_scanning.py, `_scan_secrets`: concatenates the per-file
findings over the scannable files (each file given here as its path and its
content split into lines) and reports risk_level High exactly when at least
one secret was found. -/
def scan_secrets (files : List (String × List String)) : SecretsScanResult :=
  { total_secrets := ((files.map (fun f => scan_file_for_secrets f.1 f.2)).join).length
    secrets := (files.map (fun f => scan_file_for_secrets f.1 f.2)).join
    risk_level :=
      if 0 < ((files.map (fun f => scan_file_for_secrets f.1 f.2)).join).length
      then "High" else "Low" }

/-- C4: evaluating the code on the claim's repository (one scannable file
whose single line is `password = "abc123xyz"`): because code_scanning.py
never imports `re`, the per-file scan swallows the NameError and the secrets
scan reports zero findings and risk_level Low, not one High finding and
risk_level High as the claim states. -/
theorem secrets_scan_password_file_finds_nothing :
    scan_secrets [("config.py", ["password = \"abc123xyz\""])]
      = { total_secrets := 0, secrets := [], risk_level := "Low" } := by
  rfl

structure SeverityBreakdown where
  high : ℕ
  medium : ℕ
  low : ℕ

/-- From code_scanning.py, `_get_severity_breakdown`: counts the issues
whose severity field is High, Medium or Low; other severity values are not
counted anywhere. The input here is the list of the issues' severity
fields. -/
def get_severity_breakdown (severities : List String) : SeverityBreakdown :=
  { high := (severities.filter (fun s => s == "High")).length
    medium := (severities.filter (fun s => s == "Medium")).length
    low := (severities.filter (fun s => s == "Low")).length }

/-- The vulnerabilities scan result as read by `_generate_scan_summary`:
this result dict is the only one carrying a "vulnerabilities" key. -/
structure VulnScanResult where
  total_vulnerabilities : ℕ
  severity_breakdown : SeverityBreakdown

/-- The authentication scan result as read by `_generate_scan_summary`:
like the dependencies and configuration results it carries a "total_issues"
key; its severity breakdown is not consulted by the summary. -/
structure AuthScanResult where
  total_issues : ℕ
  severity_breakdown : SeverityBreakdown

/-- The scan_results dict assembled by `run_async` in code_scanning.py: one
optional entry per scan mode. For dependencies and configuration only the
total_issues count is read by the summary. -/
structure ScanResults where
  vulnerabilities : Option VulnScanResult
  dependencies : Option ℕ
  configuration : Option ℕ
  secrets : Option ℕ
  authentication : Option AuthScanResult

structure ScanSummary where
  total_issues : ℕ
  high_severity : ℕ
  medium_severity : ℕ
  low_severity : ℕ
  risk_level : String

/-- From code_scanning.py, `_calculate_risk_level(high_count,
medium_count)`. -/
def calculate_risk_level (high_count medium_count : ℕ) : String :=
  if 5 < high_count then "Critical"
  else if 0 < high_count ∨ 10 < medium_count then "High"
  else if 5 < medium_count then "Medium"
  else "Low"

def summary_total (sr : ScanResults) : ℕ :=
  (sr.vulnerabilities.map VulnScanResult.total_vulnerabilities).getD 0
    + sr.dependencies.getD 0 + sr.configuration.getD 0
    + (sr.authentication.map AuthScanResult.total_issues).getD 0
    + sr.secrets.getD 0

def summary_high (sr : ScanResults) : ℕ :=
  (sr.vulnerabilities.map (fun v => v.severity_breakdown.high)).getD 0
    + (if 0 < sr.secrets.getD 0 then sr.secrets.getD 0 else 0)

def summary_medium (sr : ScanResults) : ℕ :=
  (sr.vulnerabilities.map (fun v => v.severity_breakdown.medium)).getD 0

def summary_low (sr : ScanResults) : ℕ :=
  (sr.vulnerabilities.map (fun v => v.severity_breakdown.low)).getD 0

/-- From code_scanning.py, `_generate_scan_summary`: sums every scan's
total into total_issues, but folds only the vulnerabilities breakdown (plus
the secret count, all High) into the severity tallies; the iteration order
over the dict does not affect any of these sums. -/
def generate_scan_summary (sr : ScanResults) : ScanSummary :=
  { total_issues := summary_total sr
    high_severity := summary_high sr
    medium_severity := summary_medium sr
    low_severity := summary_low sr
    risk_level := calculate_risk_level (summary_high sr) (summary_medium sr) }

structure DependencyIssue where
  file : String
  type : String
  severity : String

def starts_with : List Char → List Char → Bool
  | _, [] => true
  | [], _ :: _ => false
  | c :: cs, d :: ds => c == d && starts_with cs ds

def occurs_chars (sub : List Char) : List Char → Bool
  | [] => sub.isEmpty
  | c :: cs => starts_with (c :: cs) sub || occurs_chars sub cs

/-- Python substring containment `sub in s`. -/
def occurs (sub s : String) : Bool := occurs_chars sub.data s.data

def lower_chars (s : List Char) : List Char := s.map Char.toLower

/-- From code_scanning.py, `_analyze_dependency_file` (plain substring
checks, so the missing `re` import does not affect it): a Medium issue when
the lowercased content mentions "latest", and a Medium issue when the
content mentions a 0.0.0 or 0.0.1 development version. -/
def analyze_dependency_file (file content : String) : List DependencyIssue :=
  (if occurs_chars "latest".data (lower_chars content.data)
   then [{ file := file, type := "Latest Version", severity := "Medium" }] else [])
  ++ (if occurs "0.0.0" content || occurs "0.0.1" content
      then [{ file := file, type := "Development Version", severity := "Medium" }] else [])

/-- From code_scanning.py, `_scan_dependencies`: total_issues is the number
of issues collected over the dependency files that exist (given here as
(path, content) pairs). -/
def scan_dependencies_total (dep_files : List (String × String)) : ℕ :=
  ((dep_files.map (fun f => analyze_dependency_file f.1 f.2)).join).length

/-- A scan_results value the code-scanning component produces: a
dependencies-mode scan of a repository whose package.json pins a dependency
to "latest" yields one Medium dependency issue and no other results. -/
def dep_example_scan : ScanResults :=
  { vulnerabilities := none
    dependencies := some (scan_dependencies_total [("package.json", "react: latest")])
    configuration := none
    secrets := none
    authentication := none }

/-- C7 counterexample: for the scan above the summary reports total_issues
= 1 while high_severity + medium_severity + low_severity = 0, because
dependency issues are counted in the total but never in the severity
tallies. -/
theorem scan_summary_sum_counterexample :
    (generate_scan_summary dep_example_scan).total_issues = 1 ∧
    (generate_scan_summary dep_example_scan).high_severity
      + (generate_scan_summary dep_example_scan).medium_severity
      + (generate_scan_summary dep_example_scan).low_severity = 0 := by
  constructor <;> rfl

/-- C7 (amended): `_get_severity_breakdown` does produce non-negative counts
summing to the number of issues whenever every severity is High, Medium or
Low (as all rule tables guarantee); but in the scan summary the severity
tallies sum to the vulnerabilities plus secrets portion of total_issues
only: adding the dependency, configuration and authentication issue counts
recovers total_issues, so high + medium + low can fall short of
total_issues. -/
theorem scan_summary_severity_sum (sr : ScanResults) (severities : List String)
    (hsev : ∀ s ∈ severities, s = "High" ∨ s = "Medium" ∨ s = "Low")
    (hv : ∀ v, sr.vulnerabilities = some v →
      v.total_vulnerabilities = v.severity_breakdown.high
        + v.severity_breakdown.medium + v.severity_breakdown.low) :
    (get_severity_breakdown severities).high
        + (get_severity_breakdown severities).medium
        + (get_severity_breakdown severities).low = severities.length ∧
    (generate_scan_summary sr).high_severity
        + (generate_scan_summary sr).medium_severity
        + (generate_scan_summary sr).low_severity
        + sr.dependencies.getD 0 + sr.configuration.getD 0
        + (sr.authentication.map AuthScanResult.total_issues).getD 0
      = (generate_scan_summary sr).total_issues := by
  constructor
  · induction severities with
    | nil => simp [get_severity_breakdown]
    | cons s t ih =>
      have hs := hsev s (List.mem_cons_self s t)
      have iht := ih (fun x hx => hsev x (List.mem_cons_of_mem s hx))
      simp only [get_severity_breakdown, List.filter_cons, List.length_cons] at iht ⊢
      rcases hs with rfl | rfl | rfl <;> simp <;> omega
  · unfold generate_scan_summary summary_total summary_high summary_medium summary_low
    have hsec : ∀ n : ℕ, (if 0 < n then n else 0) = n := by
      intro n; split_ifs <;> omega
    cases hvv : sr.vulnerabilities with
    | none =>
      cases sr.secrets with
      | none => simp
      | some n => simp [hsec]; try omega
    | some v =>
      have hv2 := hv v hvv
      cases sr.secrets with
      | none => simp [hv2]; try omega
      | some n => simp [hv2, hsec]; try omega

/-- A scan_results value with 2 vulnerabilities (1 High, 1 Medium), 1
dependency issue and 3 secrets, used as the concrete input of the witness
below. -/
def mixed_example_breakdown : SeverityBreakdown := { high := 1, medium := 1, low := 0 }

def mixed_example_scan : ScanResults :=
  { vulnerabilities := some { total_vulnerabilities := 2, severity_breakdown := mixed_example_breakdown }
    dependencies := some 1
    configuration := none
    secrets := some 3
    authentication := none }

/-- Witness for the amended C7 at concrete inputs: severities
[High, Medium, Low, Low] sum to 4; for `mixed_example_scan` the severity
tallies (4+1+0) plus the dependency count 1 recover total_issues = 6. -/
theorem scan_summary_severity_sum_witness :
    (get_severity_breakdown ["High", "Medium", "Low", "Low"]).high
        + (get_severity_breakdown ["High", "Medium", "Low", "Low"]).medium
        + (get_severity_breakdown ["High", "Medium", "Low", "Low"]).low = 4 ∧
    (generate_scan_summary mixed_example_scan).high_severity
      + (generate_scan_summary mixed_example_scan).medium_severity
      + (generate_scan_summary mixed_example_scan).low_severity
      + mixed_example_scan.dependencies.getD 0
      + mixed_example_scan.configuration.getD 0
      + (mixed_example_scan.authentication.map AuthScanResult.total_issues).getD 0
      = (generate_scan_summary mixed_example_scan).total_issues := by
  have h := scan_summary_severity_sum mixed_example_scan
    ["High", "Medium", "Low", "Low"]
    (by intro s hs; fin_cases hs <;> simp)
    (by intro v hv; injection hv with h2; subst h2; rfl)
  exact ⟨h.1, h.2⟩

/-- The data a single gate's repository scan yields when it does not raise:
pattern hit count, analyzed file count, and evidence lines. -/
structure ScanData where
  patterns_found : ℕ
  files_analyzed : ℕ
  evidence : List String

/-- One gate's validation result dict from gate_validation.py: the error
field is present exactly in the except branches. -/
structure GateValidationResult where
  gate_name : String
  status : String
  score : ℚ
  error : Option String
  evidence : List String
  recommendations : List String

/-- From gate_validation.py, `_validate_with_patterns`: the body can raise;
the walk of the repository is abstracted as `scan`, mapping a gate name to
either the scan data the walk produces or the exception message it raises.
On success the result carries the computed score, status and
recommendations. -/
def validate_with_patterns (scan : String → Except String ScanData)
    (gate_name : String) : Except String GateValidationResult :=
  match scan gate_name with
  | Except.error e => Except.error e
  | Except.ok d =>
      Except.ok
        { gate_name := gate_name
          status := determine_gate_status
            (calculate_gate_score d.patterns_found d.files_analyzed gate_name)
            d.patterns_found
          score := calculate_gate_score d.patterns_found d.files_analyzed gate_name
          error := none
          evidence := d.evidence
          recommendations :=
            generate_gate_recommendations gate_name d.patterns_found d.evidence }

/-- From gate_validation.py, `_validate_single_gate`: wraps the single-gate
validation in try/except; any exception becomes an ERROR result with score
0 and empty evidence and recommendation lists. -/
def validate_single_gate (scan : String → Except String ScanData)
    (gate_name : String) : GateValidationResult :=
  match validate_with_patterns scan gate_name with
  | Except.ok r => r
  | Except.error e =>
      { gate_name := gate_name, status := "ERROR", score := 0,
        error := some e, evidence := [], recommendations := [] }

/-- From gate_validation.py, `run_async`: validates each requested gate in
turn, appending one result per gate. -/
def run_validation (scan : String → Except String ScanData)
    (gates : List String) : List GateValidationResult :=
  gates.map (validate_single_gate scan)

/-- C8: when the scan of gate g raises, g's result is ERROR with score 0 and
empty evidence and recommendation lists; the validation run still yields one
result for every requested gate; every result in the run is the independent
single-gate validation of its gate; and any other gate's result is unchanged
by whatever the scan does on g (so the per-gate error never aborts or
perturbs the rest of the run). -/
theorem gate_error_isolated (scan : String → Except String ScanData)
    (gates : List String) (g msg : String)
    (herr : scan g = Except.error msg) :
    validate_single_gate scan g
      = { gate_name := g, status := "ERROR", score := 0, error := some msg,
          evidence := [], recommendations := [] } ∧
    (run_validation scan gates).length = gates.length ∧
    (∀ r ∈ run_validation scan gates, ∃ g2 ∈ gates, r = validate_single_gate scan g2) ∧
    (∀ g2, g2 ≠ g → ∀ scan2 : String → Except String ScanData,
      (∀ x, x ≠ g → scan2 x = scan x) →
      validate_single_gate scan2 g2 = validate_single_gate scan g2) := by
  refine ⟨?_, ?_, ?_, ?_⟩
  · unfold validate_single_gate validate_with_patterns
    rw [herr]
  · unfold run_validation
    exact List.length_map gates _
  · intro r hr
    unfold run_validation at hr
    rcases List.mem_map.mp hr with ⟨g2, hg2, hr2⟩
    exact ⟨g2, hg2, hr2.symm⟩
  · intro g2 hne scan2 hagree
    unfold validate_single_gate validate_with_patterns
    rw [hagree g2 hne]

/-- Witness for C8 at a concrete scan: a scan that raises on RETRY_LOGIC
yields the ERROR result for RETRY_LOGIC. -/
theorem gate_error_isolated_witness :
    validate_single_gate
      (fun gate => if gate = "RETRY_LOGIC"
        then Except.error "division by zero"
        else Except.ok { patterns_found := 1, files_analyzed := 1, evidence := [] })
      "RETRY_LOGIC"
      = { gate_name := "RETRY_LOGIC", status := "ERROR", score := 0,
          error := some "division by zero", evidence := [],
          recommendations := [] } :=
  (gate_error_isolated
    (fun gate => if gate = "RETRY_LOGIC"
      then Except.error "division by zero"
      else Except.ok { patterns_found := 1, files_analyzed := 1, evidence := [] })
    [] "RETRY_LOGIC" "division by zero" (by simp)).1

structure ComplianceControl where
  id : String
  name : String
  status : String
  score : ℕ
deriving DecidableEq

/-- In compliance_check.py every control is initialized to status
"Not Assessed" with score 0 and is conditionally upgraded to "Compliant"
with score 100; this captures that initialize-then-maybe-upgrade pattern for
one control. -/
def assess_control (id name : String) (condition : Bool) : ComplianceControl :=
  if condition then { id := id, name := name, status := "Compliant", score := 100 }
  else { id := id, name := name, status := "Not Assessed", score := 0 }

/-- The `any(gate.get("gate_name") == g and gate.get("status") == "PASS")`
test used throughout compliance_check.py. -/
def gate_passed (gate_results : List GateRes) (gate_name : String) : Bool :=
  gate_results.any (fun g => g.gate_name == gate_name && g.status == "PASS")

/-- From compliance_check.py, `_check_soc2_compliance`: seven controls;
CC8.1 depends on the risk level of the security analysis, the others (except
never-upgraded ones) on specific gates passing. -/
def check_soc2_controls (gate_results : List GateRes) (risk_level : String) :
    List ComplianceControl :=
  [assess_control "CC6.1" "Logical Access Security" (gate_passed gate_results "AUTHENTICATION"),
   assess_control "CC6.2" "Access Control" (gate_passed gate_results "AUTHORIZATION"),
   assess_control "CC6.3" "Security Monitoring" (gate_passed gate_results "ALERTING_ACTIONABLE"),
   assess_control "CC7.1" "System Operations" (gate_passed gate_results "STRUCTURED_LOGS"),
   assess_control "CC7.2" "Change Management" (gate_passed gate_results "AUDIT_TRAIL"),
   assess_control "CC8.1" "Risk Assessment" (risk_level == "Low" || risk_level == "Medium"),
   assess_control "CC9.1" "Security Incident Management" (gate_passed gate_results "ERROR_HANDLING")]

/-- From compliance_check.py, `_check_iso27001_compliance`: seven controls,
three of which are tied to gates; the other four are never upgraded. -/
def check_iso27001_controls (gate_results : List GateRes) : List ComplianceControl :=
  [assess_control "A.9.1" "Access Control Policy" (gate_passed gate_results "AUTHENTICATION"),
   assess_control "A.9.2" "User Access Management" (gate_passed gate_results "AUTHORIZATION"),
   assess_control "A.9.3" "User Responsibilities" false,
   assess_control "A.12.1" "Operational Procedures" false,
   assess_control "A.12.2" "Protection from Malware" false,
   assess_control "A.12.3" "Backup" false,
   assess_control "A.12.4" "Logging and Monitoring" (gate_passed gate_results "STRUCTURED_LOGS")]

/-- From compliance_check.py, `_check_nist_compliance`: six controls, four
tied to gates, two never upgraded. -/
def check_nist_controls (gate_results : List GateRes) : List ComplianceControl :=
  [assess_control "AC-1" "Access Control Policy" (gate_passed gate_results "AUTHENTICATION"),
   assess_control "AC-2" "Account Management" (gate_passed gate_results "AUTHORIZATION"),
   assess_control "AC-3" "Access Enforcement" false,
   assess_control "AU-2" "Audit Events" (gate_passed gate_results "AUDIT_TRAIL"),
   assess_control "AU-3" "Content of Audit Records" false,
   assess_control "SI-4" "Information System Monitoring" (gate_passed gate_results "ALERTING_ACTIONABLE")]

/-- SEC-001 from `_check_enterprise_compliance`: at least 80 percent of the
gate results must be PASS, with a nonempty result list. -/
def sec001_condition (gate_results : List GateRes) : Bool :=
  decide (0 < gate_results.length) &&
  decide ((4 / 5 : ℚ) ≤
    ((gate_results.filter (fun g => g.status == "PASS")).length : ℚ)
      / (gate_results.length : ℚ))

/-- From compliance_check.py, `_check_enterprise_compliance`: five controls;
SEC-002 requires the vulnerabilities scan to be present with zero High
findings (its High count is passed here as an Option). -/
def check_enterprise_controls (gate_results : List GateRes)
    (high_vulns : Option ℕ) : List ComplianceControl :=
  [assess_control "SEC-001" "Security Gates Implementation" (sec001_condition gate_results),
   assess_control "SEC-002" "Vulnerability Management"
     (match high_vulns with | some h => h == 0 | none => false),
   assess_control "SEC-003" "Monitoring and Alerting" (gate_passed gate_results "ALERTING_ACTIONABLE"),
   assess_control "SEC-004" "Logging and Audit" (gate_passed gate_results "STRUCTURED_LOGS"),
   assess_control "SEC-005" "Error Handling" (gate_passed gate_results "ERROR_HANDLING")]

/-- From compliance_check.py, `_identify_compliance_gaps`: one gap entry per
control whose status is not "Compliant" (the gap record copies the fields of
the control it is built from). -/
def identify_compliance_gaps (controls : List ComplianceControl) :
    List ComplianceControl :=
  controls.filter (fun c => !(c.status == "Compliant"))

theorem assess_control_cases (id name : String) (b : Bool) :
    ((assess_control id name b).status = "Compliant"
        ∧ (assess_control id name b).score = 100)
    ∨ ((assess_control id name b).status = "Not Assessed"
        ∧ (assess_control id name b).score = 0) := by
  cases b <;> simp [assess_control]

/-- C10: every control produced by the SOC2, ISO27001, NIST or Enterprise
check is either Compliant with score 100 or Not Assessed with score 0; the
control-level status "Non-Compliant" never occurs; and every control whose
status is not Compliant is listed among the gaps of any controls list that
contains it (in particular its own framework's). -/
theorem compliance_control_two_states (gate_results : List GateRes)
    (risk_level : String) (high_vulns : Option ℕ) (c : ComplianceControl)
    (hc : c ∈ check_soc2_controls gate_results risk_level
        ∨ c ∈ check_iso27001_controls gate_results
        ∨ c ∈ check_nist_controls gate_results
        ∨ c ∈ check_enterprise_controls gate_results high_vulns) :
    ((c.status = "Compliant" ∧ c.score = 100)
      ∨ (c.status = "Not Assessed" ∧ c.score = 0)) ∧
    c.status ≠ "Non-Compliant" ∧
    (c.status ≠ "Compliant" → ∀ controls : List ComplianceControl,
      c ∈ controls → c ∈ identify_compliance_gaps controls) := by
  have hstates : (c.status = "Compliant" ∧ c.score = 100)
      ∨ (c.status = "Not Assessed" ∧ c.score = 0) := by
    rcases hc with h | h | h | h <;>
      [skip; skip; skip; skip] <;>
      repeat
        (rcases List.mem_cons.mp h with rfl | h
         ; · exact assess_control_cases _ _ _)
    all_goals exact absurd h (List.not_mem_nil c)
  refine ⟨hstates, ?_, ?_⟩
  · rcases hstates with ⟨h1, _⟩ | ⟨h1, _⟩ <;> rw [h1] <;> decide
  · intro hnc controls hmem
    unfold identify_compliance_gaps
    rw [List.mem_filter]
    refine ⟨hmem, ?_⟩
    simp [hnc]

/-- Witness for C10 at concrete inputs: with no gate results and risk level
Low, SOC2's CC6.1 control is Not Assessed with score 0 and appears in the
gaps of the SOC2 control list. -/
theorem compliance_control_two_states_witness :
    (assess_control "CC6.1" "Logical Access Security" false).status
        ≠ "Non-Compliant" ∧
    assess_control "CC6.1" "Logical Access Security" false
      ∈ identify_compliance_gaps (check_soc2_controls [] "Low") := by
  have h := compliance_control_two_states [] "Low" none
    (assess_control "CC6.1" "Logical Access Security" false)
    (Or.inl (by decide))
  exact ⟨h.2.1, h.2.2 (by decide) (check_soc2_controls [] "Low") (by decide)⟩

end HardgateAgent
